import Mathlib

/-!
Verification of the task-lifecycle core of the whisper-meeting-transcriber
service: a shallow embedding of the task registry, background processor,
progress protocol, recovery loader, output formatter and notification
fan-out from `app.py` / `transcriber.py` / `config.py`, with theorems that
settle the specification claims.

Machine conventions: Python floats are embedded as `Rat` (every concrete
value appearing in a claim is an exact dyadic/decimal number, on which IEEE
double arithmetic agrees with exact rational arithmetic); Python dicts with
a fixed key set become structures, dicts used as string-keyed maps become
association lists; exceptions become explicit outcome values.
-/

namespace WhisperApp

/-- Settings snapshot stored under the `settings` key of a task record
(`app.py`, create_transcription). -/
structure Settings where
  model : String
  output_format : String
  language : String
  diarize : Bool
  min_speakers : Option Nat
  max_speakers : Option Nat
deriving Repr, DecidableEq

/-- In-memory task record (`tasks[task_id]` dict in `app.py`).
`upload_path = none` models a dict lacking the key (records restored by
the recovery loader); records created by `create_transcription` always
carry it. -/
structure TaskRecord where
  task_id : String
  status : String
  progress : Int
  message : String
  filename : String
  upload_path : Option String
  result_path : Option String
  error : Option String
  created_at : String
  completed_at : Option String
  settings : Settings
  duration_seconds : Rat
  audio_duration : Option Rat
  file_size_mb : Rat
  word_count : Option Nat
  speakers_detected : Option Nat
  model_used : String
  step : String
  step_name : String
  substep : Option String
  current_time : Option Rat
  segments_processed : Option Nat
  segments_total : Option Nat
deriving Repr, DecidableEq

/-- Progress event payload pushed by the transcriber into
`progress_callback` (`app.py` lines 279-303): a dict read with `.get`,
so every key is optional. -/
structure ProgressEvent where
  progress : Option Int
  message : Option String
  step : Option String
  step_name : Option String
  substep : Option String
  audio_duration : Option Rat
  current_time : Option Rat
  segments_processed : Option Nat
  segments_total : Option Nat
deriving Repr, DecidableEq

/-- The progress-merge operation: body of `progress_callback` in
`process_task` (`app.py` 294-302).  Each line `task[k] =
progress_data.get(k, default)` becomes a field update with `Option.getD`. -/
def progress_callback (task : TaskRecord) (progress_data : ProgressEvent) : TaskRecord :=
  { task with
    progress := progress_data.progress.getD 0
    message := progress_data.message.getD ""
    step := progress_data.step.getD "processing"
    step_name := progress_data.step_name.getD "Processing"
    substep := progress_data.substep
    audio_duration := progress_data.audio_duration
    current_time := progress_data.current_time
    segments_processed := progress_data.segments_processed
    segments_total := progress_data.segments_total }

/-- Task-record creation: the dict literal of `create_transcription`
(`app.py` 225-257), after validation has passed. -/
def create_transcription (task_id : String) (filename : String)
    (upload_path : String) (s : Settings) (duration : Rat)
    (file_size_mb : Rat) (created_at : String) : TaskRecord :=
  { task_id := task_id
    status := "pending"
    progress := 0
    message := "Queued for processing"
    filename := filename
    upload_path := some upload_path
    result_path := none
    error := none
    created_at := created_at
    completed_at := none
    settings := s
    duration_seconds := duration
    audio_duration := some duration
    file_size_mb := file_size_mb
    word_count := none
    speakers_detected := none
    model_used := s.model
    step := "pending"
    step_name := "Pending"
    substep := none
    current_time := none
    segments_processed := none
    segments_total := none }

/-- Python `str.split()` with no argument: split on whitespace runs,
dropping empty pieces. -/
def py_split_ws (s : String) : List String :=
  (s.split fun c => c.isWhitespace).filter fun w => w ≠ ""

/-- Transcript segment (`transcriber.py` run_transcription): start/end
seconds and text, plus the optional speaker label added by diarization. -/
structure Segment where
  start : Rat
  end_ : Rat
  text : String
  speaker : Option String
deriving Repr, DecidableEq

/-- Result dict returned by `transcribe` (`transcriber.py` 570-577). -/
structure TResult where
  text : String
  segments : List Segment
  language : String
  duration : Rat
  speakers : Nat
  model : String
deriving Repr, DecidableEq

/-- Outcome of the `await transcribe(...)` call inside `process_task`:
either the result dict, or the message of the exception that escaped the
pipeline. -/
inductive PipelineOutcome where
  | ok (result : TResult)
  | raise (msg : String)
deriving Repr, DecidableEq

/-- Outcome of `save_result` inside `process_task`. -/
inductive SaveOutcome where
  | ok (output_path : String)
  | raise (msg : String)
deriving Repr, DecidableEq

/-- The assignment task-status to processing (`app.py` 275). -/
def set_processing (t : TaskRecord) : TaskRecord :=
  { t with status := "processing" }

/-- The success-path record update of `process_task` (`app.py` 325-334):
terminal status `completed`, progress forced to 100, step cleared to
`complete`, completion timestamp set, metrics filled from the result. -/
def mark_completed (t : TaskRecord) (result : TResult) (output_path : String)
    (now : String) : TaskRecord :=
  { t with
    status := "completed"
    progress := 100
    message := "Transcription complete"
    step := "complete"
    step_name := "Complete"
    result_path := some output_path
    completed_at := some now
    word_count := some (py_split_ws result.text).length
    speakers_detected := some result.speakers
    segments_total := some result.segments.length }

/-- The exception-handler record update of `process_task` (`app.py`
351-356): terminal status `failed`, the exception message as `error`, step
cleared to `error`.  (No other field is written there.) -/
def mark_failed (t : TaskRecord) (e : String) : TaskRecord :=
  { t with
    status := "failed"
    error := some e
    message := "Error: " ++ e
    step := "error"
    step_name := "Error" }

/-- One background run of `process_task` (`app.py` 265-361) on a record:
status goes to `processing`; the progress events emitted while `transcribe`
runs are merged in order through `progress_callback`; then either the
pipeline raises (exception handler), `save_result` raises (same handler),
or the success-path update runs.  A failure of the metadata-persistence
write is caught by its inner `try` and does not touch the record. -/
def process_task (t : TaskRecord) (events : List ProgressEvent)
    (po : PipelineOutcome) (so : SaveOutcome) (now : String) : TaskRecord :=
  let t1 := set_processing t
  let t2 := events.foldl progress_callback t1
  match po with
  | .raise e => mark_failed t2 e
  | .ok result =>
    match so with
    | .raise e => mark_failed t2 e
    | .ok output_path => mark_completed t2 result output_path now

/-- Every state the task record passes through during one `process_task`
run, in order: the initial record, the `processing` record, the record
after each progress event, and the terminal record. -/
def process_states (t : TaskRecord) (events : List ProgressEvent)
    (po : PipelineOutcome) (so : SaveOutcome) (now : String) : List TaskRecord :=
  t :: (events.scanl progress_callback (set_processing t)) ++
    [process_task t events po so now]

/-- Outcome of the diarization sub-stage in `transcribe`
(`transcriber.py` 474-553): the pipeline produced speaker-labelled
segments, or `get_diarize_pipeline()` returned `None`, or an exception was
raised inside the diarization `try` (caught at line 548). -/
inductive DiarizeOutcome where
  | ok (labelled : List Segment)
  | unavailable
  | error (msg : String)
deriving Repr, DecidableEq

/-- Speaker counting after assignment (`transcriber.py` 538-542): the
number of distinct `speaker` labels present on the segments. -/
def count_speakers (segments : List Segment) : Nat :=
  ((segments.filterMap Segment.speaker).dedup).length

/-- The tail of `transcribe` (`transcriber.py` 472-594) from the
diarization branch to the returned result dict, given the segments the
Whisper call produced and the diarization sub-stage outcome.  Diarization
runs only when requested and `HF_TOKEN` is set; its failure or
unavailability leaves `speakers_detected = 0` and the original segments.
The `duration` field re-probes the file when the upfront
`audio_duration` was 0 (`transcriber.py` 567); `duration_reprobe` is the
value that second `get_audio_duration` call would return. -/
def transcribe_result (segments : List Segment) (language : String)
    (audio_duration : Rat) (duration_reprobe : Rat) (model_name : String)
    (diarize : Bool) (hf_token_set : Bool) (dout : DiarizeOutcome) : TResult :=
  let step :=
    if diarize && hf_token_set then
      match dout with
      | .ok labelled => (labelled, count_speakers labelled)
      | .unavailable => (segments, 0)
      | .error _ => (segments, 0)
    else (segments, 0)
  let full_text := String.intercalate " " (step.1.map Segment.text)
  { text := full_text
    segments := step.1
    language := language
    duration := if audio_duration > 0 then audio_duration else duration_reprobe
    speakers := step.2
    model := model_name }

/-- Fixed tick of the synthetic progress-estimation loop:
`await asyncio.sleep(2)` (`transcriber.py` 424), in seconds. -/
def monitor_tick_interval : Nat := 2

/-- Expected total transcription time used by `monitor_progress`
(`transcriber.py` 429): `audio_duration * 0.5` if `DEVICE == "cpu"` else
`audio_duration * 0.3`. -/
def estimated_total (device : String) (audio_duration : Rat) : Rat :=
  if device = "cpu" then audio_duration * (1 / 2) else audio_duration * (3 / 10)

/-- Python `int()` truncation toward zero on an exact rational. -/
def py_int (q : Rat) : Int :=
  if 0 ≤ q then ⌊q⌋ else -(⌊-q⌋)

/-- One tick of `monitor_progress` (`transcriber.py` 423-450): given the
elapsed seconds since the Whisper call started and the last progress value
pushed, it either emits a synthetic transcribing event or stays silent
(estimated total 0, or the 5-point emission threshold not reached). -/
def monitor_progress_tick (device : String) (audio_duration : Rat)
    (diarize : Bool) (elapsed : Rat) (last_progress_update : Int) :
    Option ProgressEvent :=
  let est := estimated_total device audio_duration
  if est > 0 then
    let progress_ratio := min (elapsed / est) (19 / 20)
    let max_transcribe_pct : Rat := if diarize then 70 else 85
    let current_progress := py_int (20 + progress_ratio * (max_transcribe_pct - 20))
    if current_progress ≥ last_progress_update + 5 then
      some
        { progress := some current_progress
          message := some ("Transcribing audio (" ++ toString (py_int elapsed) ++ "s elapsed)...")
          step := some "transcribing"
          step_name := some "Transcribing"
          substep := none
          audio_duration := some audio_duration
          current_time := some (elapsed * (if device = "cpu" then 2 else 3))
          segments_processed := none
          segments_total := none }
    else none
  else none

/-- Python float floor-division `a // b` on exact rationals. -/
def py_floordiv (a b : Rat) : Int := ⌊a / b⌋

/-- Python float modulo `a % b` on exact rationals (sign of the divisor;
all uses here are non-negative). -/
def py_mod (a b : Rat) : Rat := a - b * ((⌊a / b⌋ : Int) : Rat)

/-- Zero-padded decimal rendering, Python `f"{n:0Nd}"`. -/
def pad_zero (width : Nat) (n : Int) : String :=
  let digits := toString n.natAbs
  let padded :=
    if digits.length < width then
      String.mk (List.replicate (width - digits.length) '0') ++ digits
    else digits
  if n < 0 then "-" ++ padded else padded

/-- Embeds `_format_timestamp_srt` (`transcriber.py` 663-669):
seconds to `HH:MM:SS,mmm`. -/
def _format_timestamp_srt (seconds : Rat) : String :=
  let hours := py_floordiv seconds 3600
  let minutes := py_floordiv (py_mod seconds 3600) 60
  let secs := py_int (py_mod seconds 60)
  let millis := py_int (py_mod seconds 1 * 1000)
  pad_zero 2 hours ++ ":" ++ pad_zero 2 minutes ++ ":" ++ pad_zero 2 secs
    ++ "," ++ pad_zero 3 millis

/-- Embeds `_format_timestamp_vtt` (`transcriber.py` 672-678):
seconds to `HH:MM:SS.mmm`. -/
def _format_timestamp_vtt (seconds : Rat) : String :=
  let hours := py_floordiv seconds 3600
  let minutes := py_floordiv (py_mod seconds 3600) 60
  let secs := py_int (py_mod seconds 60)
  let millis := py_int (py_mod seconds 1 * 1000)
  pad_zero 2 hours ++ ":" ++ pad_zero 2 minutes ++ ":" ++ pad_zero 2 secs
    ++ "." ++ pad_zero 3 millis

/-- Round half to even, the rounding Python `format(x, ".3f")` applies to
the scaled value (exact on the rationals that arise here). -/
def round_half_even (q : Rat) : Int :=
  let f := ⌊q⌋
  let r := q - (f : Rat)
  if r < 1 / 2 then f
  else if 1 / 2 < r then f + 1
  else if f % 2 = 0 then f else f + 1

/-- Python `f"{x:.3f}"` on an exact rational. -/
def py_format_f3 (q : Rat) : String :=
  let n := round_half_even (q * 1000)
  let m := n.natAbs
  let sign := if n < 0 then "-" else ""
  sign ++ toString (m / 1000) ++ "." ++ pad_zero 3 (Int.ofNat (m % 1000))

/-- Truthiness of a `seg.get("speaker")` lookup: present and non-empty. -/
def speaker_truthy (o : Option String) : Bool :=
  match o with
  | some s => s ≠ ""
  | none => false

/-- JSON-able Python value; used for the `json` output format and for the
dict views of a task record.  `int` and `num` are kept apart because
Python serializes `0` and `0.0` differently. -/
inductive Json where
  | str (s : String)
  | num (q : Rat)
  | int (n : Int)
  | bool (b : Bool)
  | null
  | arr (xs : List Json)
  | obj (fields : List (String × Json))
deriving Repr

/-- Decimal rendering of an exact rational, matching Python float `repr`
on values with a finite decimal expansion (the only ones that arise from
the embedded pipeline). -/
def rat_repr (q : Rat) : String :=
  let sign := if q < 0 then "-" else ""
  let a := |q|
  match (List.range 18).find? fun k => (a * (10 : Rat) ^ k).den = 1 with
  | some k =>
    let k := max k 1
    let n := (⌊a * (10 : Rat) ^ k⌋).natAbs
    sign ++ toString (n / 10 ^ k) ++ "." ++
      (pad_zero k (Int.ofNat (n % 10 ^ k)))
  | none => sign ++ toString a.num.natAbs ++ "/" ++ toString a.den

/-- One lowercase hexadecimal digit. -/
def hex_digit (n : Nat) : String :=
  if n < 10 then toString n
  else String.singleton (Char.ofNat (97 + (n - 10)))

/-- JSON string escaping (quote, backslash, control characters);
`ensure_ascii=False`, so other characters pass through. -/
def json_escape_char (c : Char) : String :=
  if c = '"' then "\\\""
  else if c = '\\' then "\\\\"
  else if c = '\n' then "\\n"
  else if c = '\t' then "\\t"
  else if c = '\r' then "\\r"
  else if c = Char.ofNat 8 then "\\b"
  else if c = Char.ofNat 12 then "\\f"
  else if c.val < 32 then
    "\\u00" ++ hex_digit (c.val.toNat / 16) ++ hex_digit (c.val.toNat % 16)
  else String.singleton c

def json_escape (s : String) : String :=
  String.join (s.toList.map json_escape_char)

def json_spaces (n : Nat) : String := String.mk (List.replicate n ' ')

mutual

/-- Renders `json.dumps(v, indent=2, ensure_ascii=False)` at the given
indentation depth. -/
def Json.render (indent : Nat) : Json → String
  | .str s => "\"" ++ json_escape s ++ "\""
  | .num q => rat_repr q
  | .int n => toString n
  | .bool b => if b then "true" else "false"
  | .null => "null"
  | .arr [] => "[]"
  | .arr (x :: xs) =>
    "[\n" ++ String.intercalate ",\n"
        (Json.renderList (indent + 2) (x :: xs)) ++
      "\n" ++ json_spaces indent ++ "]"
  | .obj [] => "\x7b\x7d"
  | .obj (f :: fs) =>
    "\x7b\n" ++ String.intercalate ",\n"
        (Json.renderObj (indent + 2) (f :: fs)) ++
      "\n" ++ json_spaces indent ++ "\x7d"

def Json.renderList (indent : Nat) : List Json → List String
  | [] => []
  | x :: xs => (json_spaces indent ++ Json.render indent x) :: Json.renderList indent xs

def Json.renderObj (indent : Nat) : List (String × Json) → List String
  | [] => []
  | (k, v) :: fs =>
    (json_spaces indent ++ "\"" ++ json_escape k ++ "\": " ++ Json.render indent v)
      :: Json.renderObj indent fs

end

/-- A transcript segment as the dict built in `run_transcription`
(start/end/text, plus the `speaker` key when diarization assigned one;
word-level timestamp lists are not modelled, no claim touches them). -/
def segment_json (seg : Segment) : Json :=
  Json.obj
    ([("start", Json.num seg.start), ("end", Json.num seg.end_),
      ("text", Json.str seg.text)] ++
      (match seg.speaker with
        | some sp => [("speaker", Json.str sp)]
        | none => []))

/-- The result dict of `transcribe` as a JSON value. -/
def tresult_json (result : TResult) : Json :=
  Json.obj
    [("text", Json.str result.text),
     ("segments", Json.arr (result.segments.map segment_json)),
     ("language", Json.str result.language),
     ("duration", Json.num result.duration),
     ("speakers", Json.int (Int.ofNat result.speakers)),
     ("model", Json.str result.model)]

/-- Embeds `format_output` (`transcriber.py` 607-660). -/
def format_output (result : TResult) (output_format : String) : String :=
  if output_format = "json" then
    Json.render 0 (tresult_json result)
  else if output_format = "txt" then
    if result.speakers > 0 then
      String.intercalate "\n"
        (result.segments.map fun seg =>
          match seg.speaker with
          | some sp => if sp = "" then seg.text else "[" ++ sp ++ "] " ++ seg.text
          | none => seg.text)
    else result.text
  else if output_format = "srt" then
    String.intercalate "\n"
      ((result.segments.enumFrom 1).map fun p =>
        let text :=
          if speaker_truthy p.2.speaker then
            "[" ++ (p.2.speaker.getD "") ++ "] " ++ p.2.text
          else p.2.text
        toString p.1 ++ "\n" ++ _format_timestamp_srt p.2.start ++ " --> "
          ++ _format_timestamp_srt p.2.end_ ++ "\n" ++ text ++ "\n")
  else if output_format = "vtt" then
    String.intercalate "\n"
      ("WEBVTT\n" ::
        result.segments.map fun seg =>
          let text :=
            if speaker_truthy seg.speaker then
              "[" ++ (seg.speaker.getD "") ++ "] " ++ seg.text
            else seg.text
          _format_timestamp_vtt seg.start ++ " --> " ++ _format_timestamp_vtt seg.end_
            ++ "\n" ++ text ++ "\n")
  else if output_format = "tsv" then
    String.intercalate "\n"
      ("start\tend\ttext" ::
        result.segments.map fun seg =>
          let text :=
            if speaker_truthy seg.speaker then
              "[" ++ (seg.speaker.getD "") ++ "] " ++ seg.text
            else seg.text
          py_format_f3 seg.start ++ "\t" ++ py_format_f3 seg.end_ ++ "\t" ++ text)
  else result.text

/-- Python string `<=`: lexicographic comparison by code point on the
character lists. -/
def py_list_le : List Char → List Char → Bool
  | [], _ => true
  | _ :: _, [] => false
  | c :: cs, d :: ds =>
    if c.val < d.val then true
    else if d.val < c.val then false
    else py_list_le cs ds

def py_str_le (a b : String) : Bool := py_list_le a.toList b.toList

/-- Parsed content of a snapshot (`.meta.json`) file: the loader reads
only `task_id` and `completed_at` (each may be absent); the remaining
record fields are opaque to it and carried as `payload`. -/
structure PTask where
  task_id : Option String
  completed_at : Option String
  payload : String
deriving Repr, DecidableEq

/-- A snapshot file as the recovery loader sees it: its name, whether the
corresponding result file (name minus the `.meta.json` suffix) exists, and
its parsed content (`none` models a `json.load` failure, caught by the
per-file `try`). -/
structure MetaFile where
  name : String
  result_exists : Bool
  content : Option PTask
deriving Repr, DecidableEq

/-- Python dict assignment `tasks[task_id] = task` on an insertion-ordered
association list. -/
def dict_insert (m : List (String × PTask)) (k : String) (v : PTask) :
    List (String × PTask) :=
  if m.any fun kv => kv.1 = k then
    m.map fun kv => if kv.1 = k then (k, v) else kv
  else m ++ [(k, v)]

/-- Python dict lookup `tasks.get(task_id)`. -/
def dict_get? (m : List (String × PTask)) (k : String) : Option PTask :=
  (m.find? fun kv => kv.1 = k).map Prod.snd

/-- The body of the per-file loop of `load_persisted_tasks` (`app.py`
49-76): skip when the result file is missing, when parsing fails, or when
`task_id` is absent/empty; on a duplicate id keep the existing record
unless the new `completed_at` is strictly later (`new <= existing`
compares the strings, absent values defaulting to `""`). -/
def load_step (tasks : List (String × PTask)) (meta_file : MetaFile) :
    List (String × PTask) :=
  if !meta_file.result_exists then tasks
  else
    match meta_file.content with
    | none => tasks
    | some task =>
      match task.task_id with
      | none => tasks
      | some task_id =>
        if task_id = "" then tasks
        else
          match dict_get? tasks task_id with
          | some existing =>
            let existing_completed := existing.completed_at.getD ""
            let new_completed := task.completed_at.getD ""
            if py_str_le new_completed existing_completed then tasks
            else dict_insert tasks task_id task
          | none => dict_insert tasks task_id task

/-- Embeds `load_persisted_tasks` (`app.py` 46-79): fold the per-file loop over
the scanned snapshot files, starting from the empty registry the process
boots with. -/
def load_persisted_tasks (meta_files : List MetaFile) : List (String × PTask) :=
  meta_files.foldl load_step []

/-- A live WebSocket connection as `notify_websocket` can observe it:
whether `send_json` succeeds or raises (connection gone). -/
structure WsConn where
  send_ok : Bool
deriving Repr, DecidableEq

/-- Effect of one `notify_websocket` call (`app.py` 374-402): the
subscriber map afterwards, whether an exception escaped the call, and
whether the payload was delivered. -/
structure NotifyResult where
  connections : List (String × WsConn)
  raised : Bool
  delivered : Bool
deriving Repr, DecidableEq

/-- Embeds `notify_websocket` (`app.py` 374-402): look up the subscriber for the
task id; if present, try `send_json`; a send failure is caught and logged
(`except` at 401-402) — the function itself never mutates
`websocket_connections`. -/
def notify_websocket (connections : List (String × WsConn)) (task_id : String) :
    NotifyResult :=
  match (connections.find? fun kv => kv.1 = task_id).map Prod.snd with
  | none => { connections := connections, raised := false, delivered := false }
  | some ws =>
    if ws.send_ok then
      { connections := connections, raised := false, delivered := true }
    else
      { connections := connections, raised := false, delivered := false }

/-- The `finally` block of `websocket_endpoint` (`app.py` 428-430):
`websocket_connections.pop(task_id, None)` when the handler exits. -/
def websocket_endpoint_cleanup (connections : List (String × WsConn))
    (task_id : String) : List (String × WsConn) :=
  connections.filter fun kv => kv.1 ≠ task_id

def option_str_json (o : Option String) : Json :=
  match o with
  | some s => Json.str s
  | none => Json.null

def option_rat_json (o : Option Rat) : Json :=
  match o with
  | some q => Json.num q
  | none => Json.null

def option_nat_json (o : Option Nat) : Json :=
  match o with
  | some n => Json.int (Int.ofNat n)
  | none => Json.null

/-- The `settings` sub-dict of a task record. -/
def settings_items (s : Settings) : Json :=
  Json.obj
    [("model", Json.str s.model),
     ("output_format", Json.str s.output_format),
     ("language", Json.str s.language),
     ("diarize", Json.bool s.diarize),
     ("min_speakers", option_nat_json s.min_speakers),
     ("max_speakers", option_nat_json s.max_speakers)]

/-- The sequence `task.items()`: the task record as the key/value sequence of the dict
in `tasks`, keys in the insertion order of `create_transcription`
(`app.py` 225-257).  The `upload_path` entry is present exactly when the
record carries that field. -/
def task_items (t : TaskRecord) : List (String × Json) :=
  [("task_id", Json.str t.task_id),
   ("status", Json.str t.status),
   ("progress", Json.int t.progress),
   ("message", Json.str t.message),
   ("filename", Json.str t.filename)] ++
  (match t.upload_path with
    | some p => [("upload_path", Json.str p)]
    | none => []) ++
  [("result_path", option_str_json t.result_path),
   ("error", option_str_json t.error),
   ("created_at", Json.str t.created_at),
   ("completed_at", option_str_json t.completed_at),
   ("settings", settings_items t.settings),
   ("duration_seconds", Json.num t.duration_seconds),
   ("audio_duration", option_rat_json t.audio_duration),
   ("file_size_mb", Json.num t.file_size_mb),
   ("word_count", option_nat_json t.word_count),
   ("speakers_detected", option_nat_json t.speakers_detected),
   ("model_used", Json.str t.model_used),
   ("step", Json.str t.step),
   ("step_name", Json.str t.step_name),
   ("substep", option_str_json t.substep),
   ("current_time", option_rat_json t.current_time),
   ("segments_processed", option_nat_json t.segments_processed),
   ("segments_total", option_nat_json t.segments_total)]

/-- Endpoint `GET /status/{task_id}` (`app.py` 433-440): returns the raw in-memory
record, unfiltered. -/
def get_status (t : TaskRecord) : List (String × Json) := task_items t

/-- One entry of `GET /tasks` (`app.py` 468-477):
`{k: v for k, v in task.items() if k != "upload_path"}`. -/
def list_tasks_entry (t : TaskRecord) : List (String × Json) :=
  (task_items t).filter fun kv => kv.1 ≠ "upload_path"

/-- The snapshot written by `process_task` after completion (`app.py`
344): `{k: v for k, v in task.items() if k != "upload_path"}`. -/
def task_meta_snapshot (t : TaskRecord) : List (String × Json) :=
  (task_items t).filter fun kv => kv.1 ≠ "upload_path"

/-- The payload `notify_websocket` pushes (`app.py` 380-399): an explicit
dict of task fields — `upload_path` is not among them. -/
def ws_payload (t : TaskRecord) : List (String × Json) :=
  [("task_id", Json.str t.task_id),
   ("status", Json.str t.status),
   ("progress", Json.int t.progress),
   ("message", Json.str t.message),
   ("result_path", option_str_json t.result_path),
   ("error", option_str_json t.error),
   ("step", Json.str t.step),
   ("step_name", Json.str t.step_name),
   ("substep", option_str_json t.substep),
   ("audio_duration", option_rat_json t.audio_duration),
   ("current_time", option_rat_json t.current_time),
   ("segments_processed", option_nat_json t.segments_processed),
   ("segments_total", option_nat_json t.segments_total),
   ("file_size_mb", Json.num t.file_size_mb),
   ("filename", Json.str t.filename),
   ("word_count", option_nat_json t.word_count),
   ("speakers_detected", option_nat_json t.speakers_detected)]

/-- Terminal status produced by one `process_task` run: `failed` when the
pipeline or `save_result` raises, else `completed`. -/
def final_status (po : PipelineOutcome) (so : SaveOutcome) : String :=
  match po, so with
  | .raise _, _ => "failed"
  | .ok _, .raise _ => "failed"
  | .ok _, .ok _ => "completed"

/-- The transitions the spec allows for the `status` field. -/
def allowed_transition (a b : String) : Prop :=
  (a = "pending" ∧ b = "processing") ∨ (a = "processing" ∧ b = "processing")
    ∨ (a = "processing" ∧ b = "completed") ∨ (a = "processing" ∧ b = "failed")

theorem progress_callback_status_eq (t : TaskRecord) (e : ProgressEvent) :
    (progress_callback t e).status = t.status := rfl

theorem foldl_progress_callback_status (events : List ProgressEvent)
    (t : TaskRecord) :
    (events.foldl progress_callback t).status = t.status := by
  induction events generalizing t with
  | nil => rfl
  | cons e es ih => exact ih (progress_callback t e)

theorem foldl_progress_callback_completed_at (events : List ProgressEvent)
    (t : TaskRecord) :
    (events.foldl progress_callback t).completed_at = t.completed_at := by
  induction events generalizing t with
  | nil => rfl
  | cons e es ih => exact ih (progress_callback t e)

theorem scanl_progress_callback_status (events : List ProgressEvent)
    (t : TaskRecord) :
    (events.scanl progress_callback t).map TaskRecord.status
      = List.replicate (events.length + 1) t.status := by
  induction events generalizing t with
  | nil => rfl
  | cons e es ih =>
    have h := ih (progress_callback t e)
    simp only [List.scanl, List.map_cons, List.length_cons, List.replicate_succ]
    exact congrArg (t.status :: ·) h

theorem process_task_status (t : TaskRecord) (events : List ProgressEvent)
    (po : PipelineOutcome) (so : SaveOutcome) (now : String) :
    (process_task t events po so now).status = final_status po so := by
  cases po with
  | raise e => rfl
  | ok result => cases so with
    | raise e => rfl
    | ok path => rfl

theorem chain_replicate_processing (n : Nat) (s : String)
    (h : s = "completed" ∨ s = "failed") :
    List.Chain' allowed_transition
      (List.replicate (n + 1) "processing" ++ [s]) := by
  induction n with
  | zero =>
    refine List.chain'_cons.mpr ⟨?_, List.chain'_singleton s⟩
    rcases h with h | h <;> subst h
    · exact Or.inr (Or.inr (Or.inl ⟨rfl, rfl⟩))
    · exact Or.inr (Or.inr (Or.inr ⟨rfl, rfl⟩))
  | succ n ih =>
    rw [List.replicate_succ, List.cons_append]
    refine List.chain'_cons'.mpr ⟨?_, ih⟩
    intro b hb
    rw [List.replicate_succ, List.cons_append, List.head?_cons] at hb
    cases hb
    exact Or.inr (Or.inl ⟨rfl, rfl⟩)

/-- C1 (amended): a failed background run sets status `failed`, records
the exception message as `error` and `Error: <msg>` as `message`, and
clears step to `error` — but it does not set `completed_at` (that field is
written only by the success path); a successful run sets status
`completed`, step `complete`, `result_path` and `completed_at`. -/
theorem process_task_terminal_updates (t : TaskRecord)
    (events : List ProgressEvent) (e : String) (so : SaveOutcome)
    (result : TResult) (path now : String) :
    ((process_task t events (.raise e) so now).status = "failed"
      ∧ (process_task t events (.raise e) so now).error = some e
      ∧ (process_task t events (.raise e) so now).message = "Error: " ++ e
      ∧ (process_task t events (.raise e) so now).step = "error"
      ∧ (process_task t events (.raise e) so now).step_name = "Error"
      ∧ (process_task t events (.raise e) so now).completed_at = t.completed_at)
    ∧ ((process_task t events (.ok result) (.ok path) now).status = "completed"
      ∧ (process_task t events (.ok result) (.ok path) now).step = "complete"
      ∧ (process_task t events (.ok result) (.ok path) now).result_path = some path
      ∧ (process_task t events (.ok result) (.ok path) now).completed_at = some now) := by
  refine ⟨⟨rfl, rfl, rfl, rfl, rfl, ?_⟩, rfl, rfl, rfl, rfl⟩
  exact foldl_progress_callback_completed_at events (set_processing t)

/-- Fixed sample record: a task created by `create_transcription`. -/
def sample_task : TaskRecord :=
  create_transcription "ab12cd34" "meeting.mp4" "uploads/ab12cd34_meeting.mp4"
    { model := "base", output_format := "txt", language := "auto",
      diarize := false, min_speakers := none, max_speakers := none }
    60 (5 / 2) "2025-03-01T09:00:00"

/-- C1 counterexample: on a failed run the record ends with status
`failed` but its `completed_at` is still `None` — the claim's "its
completion timestamp (completed_at) is set" is false on the code. -/
theorem process_task_failed_no_completed_at :
    (process_task sample_task [] (.raise "FFmpeg failed with code 1")
        (.ok "results/meeting_transcription_20250301_090500.txt")
        "2025-03-01T09:05:00").status = "failed"
    ∧ (process_task sample_task [] (.raise "FFmpeg failed with code 1")
        (.ok "results/meeting_transcription_20250301_090500.txt")
        "2025-03-01T09:05:00").completed_at = none :=
  ⟨rfl, rfl⟩

/-- C2: along one full task lifecycle (creation by `create_transcription`,
then the single `process_task` run), the observed status sequence is
exactly `pending`, then `processing` (held across every progress event),
then one terminal status — so every adjacent transition is an allowed edge
of pending → processing → (completed | failed), nothing ever skips
processing or leaves a terminal state. -/
theorem status_transition_discipline (task_id filename upload_path : String)
    (s : Settings) (duration file_size_mb : Rat) (created_at : String)
    (events : List ProgressEvent) (po : PipelineOutcome) (so : SaveOutcome)
    (now : String) :
    (process_states
        (create_transcription task_id filename upload_path s duration file_size_mb created_at)
        events po so now).map TaskRecord.status
      = "pending" :: (List.replicate (events.length + 1) "processing"
          ++ [final_status po so])
    ∧ List.Chain' allowed_transition
        ((process_states
            (create_transcription task_id filename upload_path s duration file_size_mb created_at)
            events po so now).map TaskRecord.status)
    ∧ (final_status po so = "completed" ∨ final_status po so = "failed") := by
  have hterm : final_status po so = "completed" ∨ final_status po so = "failed" := by
    cases po with
    | raise e => exact Or.inr rfl
    | ok result => cases so with
      | raise e => exact Or.inr rfl
      | ok path => exact Or.inl rfl
  have hmap :
      (process_states
          (create_transcription task_id filename upload_path s duration file_size_mb created_at)
          events po so now).map TaskRecord.status
        = "pending" :: (List.replicate (events.length + 1) "processing"
            ++ [final_status po so]) := by
    simp only [process_states, List.map_cons, List.map_append, List.map_cons,
      List.map_nil, scanl_progress_callback_status, process_task_status]
    rfl
  refine ⟨hmap, ?_, hterm⟩
  rw [hmap]
  refine List.chain'_cons'.mpr ⟨?_, chain_replicate_processing events.length _ hterm⟩
  intro b hb
  rw [List.replicate_succ, List.cons_append, List.head?_cons] at hb
  cases hb
  exact Or.inl ⟨rfl, rfl⟩

/-- C3: merging a progress event through `progress_callback` writes only
the progress / message / step / step-name / substep / audio-duration /
current-time / segment-count fields: every other field — in particular
`status` — is unchanged, so a late event applied to a terminal record
cannot make its status `processing` again. -/
theorem progress_merge_frame (t : TaskRecord) (e : ProgressEvent) :
    (progress_callback t e).status = t.status
    ∧ (progress_callback t e).task_id = t.task_id
    ∧ (progress_callback t e).filename = t.filename
    ∧ (progress_callback t e).upload_path = t.upload_path
    ∧ (progress_callback t e).result_path = t.result_path
    ∧ (progress_callback t e).error = t.error
    ∧ (progress_callback t e).created_at = t.created_at
    ∧ (progress_callback t e).completed_at = t.completed_at
    ∧ (progress_callback t e).settings = t.settings
    ∧ (progress_callback t e).duration_seconds = t.duration_seconds
    ∧ (progress_callback t e).file_size_mb = t.file_size_mb
    ∧ (progress_callback t e).word_count = t.word_count
    ∧ (progress_callback t e).speakers_detected = t.speakers_detected
    ∧ (progress_callback t e).model_used = t.model_used
    ∧ ((t.status = "completed" ∨ t.status = "failed") →
        (progress_callback t e).status ≠ "processing") := by
  refine ⟨rfl, rfl, rfl, rfl, rfl, rfl, rfl, rfl, rfl, rfl, rfl, rfl, rfl, rfl, ?_⟩
  intro h
  rw [progress_callback_status_eq]
  rcases h with h | h <;> rw [h] <;> decide

/-- A progress event as the estimator emits one. -/
def sample_event : ProgressEvent :=
  { progress := some 42, message := some "Transcribing audio (30s elapsed)..."
    step := some "transcribing", step_name := some "Transcribing"
    substep := none, audio_duration := some 60, current_time := some 60
    segments_processed := none, segments_total := none }

/-- A record already marked completed. -/
def sample_completed : TaskRecord :=
  mark_completed (set_processing sample_task)
    { text := "hello world", segments := [], language := "en",
      duration := 60, speakers := 0, model := "base" }
    "results/meeting_transcription_20250301_090500.txt" "2025-03-01T09:05:00"

theorem progress_merge_frame_witness :
    (progress_callback sample_completed sample_event).status ≠ "processing" :=
  (progress_merge_frame sample_completed sample_event).2.2.2.2.2.2.2.2.2.2.2.2.2.2
    (Or.inl rfl)

theorem py_list_le_total (a b : List Char) (h : py_list_le a b = false) :
    py_list_le b a = true := by
  induction a generalizing b with
  | nil => simp [py_list_le] at h
  | cons c cs ih =>
    cases b with
    | nil => simp [py_list_le]
    | cons d ds =>
      simp only [py_list_le] at h ⊢
      by_cases h1 : c.val < d.val
      · rw [if_pos h1] at h
        exact absurd h (by simp)
      · by_cases h2 : d.val < c.val
        · rw [if_pos h2]
        · rw [if_neg h1, if_neg h2] at h
          rw [if_neg h2, if_neg h1]
          exact ih ds h

theorem py_str_le_total (a b : String) (h : py_str_le a b = false) :
    py_str_le b a = true :=
  py_list_le_total a.toList b.toList h

/-- C4: when two snapshot files carry the same (non-empty) task id, both
have their result file, both parse, and the second file's `completed_at`
is lexicographically strictly later than the first's (`new <= existing`
is false), the loader ends up with the later record in the registry in
either scan order. -/
theorem loader_duplicate_resolution (n1 n2 tid c1 c2 p1 p2 : String)
    (htid : tid ≠ "")
    (hlater : py_str_le c2 c1 = false) :
    dict_get? (load_persisted_tasks
        [⟨n1, true, some ⟨some tid, some c1, p1⟩⟩,
         ⟨n2, true, some ⟨some tid, some c2, p2⟩⟩]) tid
      = some ⟨some tid, some c2, p2⟩
    ∧ dict_get? (load_persisted_tasks
        [⟨n2, true, some ⟨some tid, some c2, p2⟩⟩,
         ⟨n1, true, some ⟨some tid, some c1, p1⟩⟩]) tid
      = some ⟨some tid, some c2, p2⟩ := by
  have hle : py_str_le c1 c2 = true := py_str_le_total c2 c1 hlater
  constructor
  · simp [load_persisted_tasks, load_step, dict_get?, dict_insert, htid,
      hlater, List.find?]
  · simp [load_persisted_tasks, load_step, dict_get?, dict_insert, htid,
      hle, List.find?]

theorem loader_duplicate_resolution_witness :
    dict_get? (load_persisted_tasks
        [⟨"a.txt.meta.json", true,
          some ⟨some "ab12cd34", some "2025-03-01T09:05:00", "x"⟩⟩,
         ⟨"b.txt.meta.json", true,
          some ⟨some "ab12cd34", some "2025-03-02T10:00:00", "y"⟩⟩]) "ab12cd34"
      = some ⟨some "ab12cd34", some "2025-03-02T10:00:00", "y"⟩
    ∧ dict_get? (load_persisted_tasks
        [⟨"b.txt.meta.json", true,
          some ⟨some "ab12cd34", some "2025-03-02T10:00:00", "y"⟩⟩,
         ⟨"a.txt.meta.json", true,
          some ⟨some "ab12cd34", some "2025-03-01T09:05:00", "x"⟩⟩]) "ab12cd34"
      = some ⟨some "ab12cd34", some "2025-03-02T10:00:00", "y"⟩ :=
  loader_duplicate_resolution "a.txt.meta.json" "b.txt.meta.json" "ab12cd34"
    "2025-03-01T09:05:00" "2025-03-02T10:00:00" "x" "y"
    (by decide) (by decide)

/-- C5: a snapshot file whose result file is missing, or whose JSON does
not parse, or whose record has no (or an empty) `task_id`, is a no-op for
the loader: the registry produced from any scan containing it equals the
one produced without it — it is never inserted and the remaining files
are still processed. -/
theorem loader_orphan_skip (pre post : List MetaFile) (f : MetaFile)
    (h : f.result_exists = false ∨ f.content = none
        ∨ (∃ t, f.content = some t
            ∧ (t.task_id = none ∨ t.task_id = some ""))) :
    load_persisted_tasks (pre ++ f :: post)
      = load_persisted_tasks (pre ++ post) := by
  have hstep : ∀ m, load_step m f = m := by
    intro m
    rcases h with h | h | ⟨t, hc, hid⟩
    · simp [load_step, h]
    · cases hre : f.result_exists <;> simp [load_step, h, hre]
    · rcases hid with hid | hid <;>
        cases hre : f.result_exists <;>
        simp [load_step, hc, hid, hre]
  simp [load_persisted_tasks, List.foldl_append, hstep]

theorem loader_orphan_skip_witness :
    load_persisted_tasks
        [⟨"orphan.txt.meta.json", false,
          some ⟨some "dead0001", some "2025-03-01T09:05:00", "x"⟩⟩,
         ⟨"b.txt.meta.json", true,
          some ⟨some "ab12cd34", some "2025-03-02T10:00:00", "y"⟩⟩]
      = load_persisted_tasks
        [⟨"b.txt.meta.json", true,
          some ⟨some "ab12cd34", some "2025-03-02T10:00:00", "y"⟩⟩] :=
  loader_orphan_skip []
    [⟨"b.txt.meta.json", true,
      some ⟨some "ab12cd34", some "2025-03-02T10:00:00", "y"⟩⟩]
    ⟨"orphan.txt.meta.json", false,
      some ⟨some "dead0001", some "2025-03-01T09:05:00", "x"⟩⟩
    (Or.inl rfl)

/-- C6: when diarization was requested but its sub-stage raised (caught at
`transcriber.py` 548) or the pipeline was unavailable, while the Whisper
call and `save_result` succeeded, the task still ends `completed` with
`speakers_detected = 0`. -/
theorem diarization_failure_still_completes (segments : List Segment)
    (language : String) (d dr : Rat) (model_name : String) (hf : Bool)
    (dout : DiarizeOutcome) (t : TaskRecord) (events : List ProgressEvent)
    (path now : String)
    (h : dout = .unavailable ∨ ∃ m, dout = .error m) :
    (process_task t events
        (.ok (transcribe_result segments language d dr model_name true hf dout))
        (.ok path) now).status = "completed"
    ∧ (process_task t events
        (.ok (transcribe_result segments language d dr model_name true hf dout))
        (.ok path) now).speakers_detected = some 0 := by
  rcases h with h | ⟨m, h⟩ <;> subst h <;> cases hf <;> exact ⟨rfl, rfl⟩

theorem diarization_failure_still_completes_witness :
    (process_task sample_task []
        (.ok (transcribe_result [⟨0, 3 / 2, "hello", none⟩] "en" 60 60 "base"
          true true (.error "Could not load diarization pipeline")))
        (.ok "results/meeting_transcription_20250301_090500.txt")
        "2025-03-01T09:05:00").status = "completed"
    ∧ (process_task sample_task []
        (.ok (transcribe_result [⟨0, 3 / 2, "hello", none⟩] "en" 60 60 "base"
          true true (.error "Could not load diarization pipeline")))
        (.ok "results/meeting_transcription_20250301_090500.txt")
        "2025-03-01T09:05:00").speakers_detected = some 0 :=
  diarization_failure_still_completes [⟨0, 3 / 2, "hello", none⟩] "en" 60 60
    "base" true (.error "Could not load diarization pipeline") sample_task []
    "results/meeting_transcription_20250301_090500.txt" "2025-03-01T09:05:00"
    (Or.inr ⟨"Could not load diarization pipeline", rfl⟩)

/-- C7 counterexample: the estimator's expected total on CPU for 4 seconds
of audio is 2 seconds (`audio_duration * 0.5`), not the claimed 2·d = 8;
off CPU it is 0.3·d = 1.2, not the claimed d/2 = 2. -/
theorem estimator_expected_total_counterexample :
    estimated_total "cpu" 4 = 2
    ∧ ¬ estimated_total "cpu" 4 = 2 * 4
    ∧ estimated_total "cuda" 4 = 6 / 5
    ∧ ¬ estimated_total "cuda" 4 = 4 / 2 := by
  unfold estimated_total
  rw [if_pos rfl, if_neg (by decide : ¬ ("cuda" : String) = "cpu")]
  refine ⟨by norm_num, by norm_num, by norm_num, by norm_num⟩

/-- C7 (amended): the estimation loop ticks every 2 seconds and computes
the expected total transcription time as 0.5·d on CPU and 0.3·d on any
other device (`transcriber.py` 424, 429) — i.e. it assumes transcription
is faster than the audio, not slower. -/
theorem estimator_expected_total_formula (d : Rat) (dev : String)
    (hdev : dev ≠ "cpu") :
    estimated_total "cpu" d = d * (1 / 2)
    ∧ estimated_total dev d = d * (3 / 10)
    ∧ monitor_tick_interval = 2 := by
  refine ⟨by simp [estimated_total], by simp [estimated_total, hdev], rfl⟩

theorem estimator_expected_total_formula_witness :
    estimated_total "cpu" 7 = 7 * (1 / 2)
    ∧ estimated_total "cuda" 7 = 7 * (3 / 10)
    ∧ monitor_tick_interval = 2 :=
  estimator_expected_total_formula 7 "cuda" (by decide)

theorem floor_eval (r : Rat) (z : Int) (h1 : (z : Rat) ≤ r) (h2 : r < z + 1) :
    ⌊r⌋ = z := Int.floor_eq_iff.mpr ⟨h1, h2⟩

theorem round_half_even_intCast (z : Int) :
    round_half_even ((z : Int) : Rat) = z := by
  simp only [round_half_even]
  rw [Int.floor_intCast, sub_self, if_pos (by norm_num : (0 : Rat) < 1 / 2)]

theorem format_timestamp_srt_zero : _format_timestamp_srt 0 = "00:00:00,000" := by
  have m3600 : py_mod (0 : Rat) 3600 = 0 := by
    rw [py_mod, floor_eval _ 0 (by norm_num) (by norm_num)]
    norm_num
  have m60 : py_mod (0 : Rat) 60 = 0 := by
    rw [py_mod, floor_eval _ 0 (by norm_num) (by norm_num)]
    norm_num
  have m1 : py_mod (0 : Rat) 1 = 0 := by
    rw [py_mod, floor_eval _ 0 (by norm_num) (by norm_num)]
    norm_num
  rw [_format_timestamp_srt, m3600, m60, m1]
  rw [py_floordiv, py_floordiv, floor_eval _ 0 (by norm_num) (by norm_num),
    floor_eval _ 0 (by norm_num) (by norm_num)]
  rw [py_int, if_pos (by norm_num : (0 : Rat) ≤ 0),
    floor_eval _ 0 (by norm_num) (by norm_num)]
  rw [show (0 : Rat) * 1000 = 0 by norm_num]
  rw [py_int, if_pos (by norm_num : (0 : Rat) ≤ 0),
    floor_eval _ 0 (by norm_num) (by norm_num)]
  decide

theorem format_timestamp_srt_three_halves :
    _format_timestamp_srt (3 / 2) = "00:00:01,500" := by
  have m3600 : py_mod (3 / 2 : Rat) 3600 = 3 / 2 := by
    rw [py_mod, floor_eval _ 0 (by norm_num) (by norm_num)]
    norm_num
  have m60 : py_mod (3 / 2 : Rat) 60 = 3 / 2 := by
    rw [py_mod, floor_eval _ 0 (by norm_num) (by norm_num)]
    norm_num
  have m1 : py_mod (3 / 2 : Rat) 1 = 1 / 2 := by
    rw [py_mod, floor_eval _ 1 (by norm_num) (by norm_num)]
    norm_num
  rw [_format_timestamp_srt, m3600, m60, m1]
  rw [py_floordiv, py_floordiv, floor_eval _ 0 (by norm_num) (by norm_num),
    floor_eval _ 0 (by norm_num) (by norm_num)]
  rw [py_int, if_pos (by norm_num : (0 : Rat) ≤ 3 / 2),
    floor_eval _ 1 (by norm_num) (by norm_num)]
  rw [show (1 / 2 : Rat) * 1000 = 500 by norm_num]
  rw [py_int, if_pos (by norm_num : (0 : Rat) ≤ (500 : Rat)),
    floor_eval _ 500 (by norm_num) (by norm_num)]
  decide

theorem format_timestamp_srt_thirteen_quarters :
    _format_timestamp_srt (13 / 4) = "00:00:03,250" := by
  have m3600 : py_mod (13 / 4 : Rat) 3600 = 13 / 4 := by
    rw [py_mod, floor_eval _ 0 (by norm_num) (by norm_num)]
    norm_num
  have m60 : py_mod (13 / 4 : Rat) 60 = 13 / 4 := by
    rw [py_mod, floor_eval _ 0 (by norm_num) (by norm_num)]
    norm_num
  have m1 : py_mod (13 / 4 : Rat) 1 = 1 / 4 := by
    rw [py_mod, floor_eval _ 3 (by norm_num) (by norm_num)]
    norm_num
  rw [_format_timestamp_srt, m3600, m60, m1]
  rw [py_floordiv, py_floordiv, floor_eval _ 0 (by norm_num) (by norm_num),
    floor_eval _ 0 (by norm_num) (by norm_num)]
  rw [py_int, if_pos (by norm_num : (0 : Rat) ≤ 13 / 4),
    floor_eval _ 3 (by norm_num) (by norm_num)]
  rw [show (1 / 4 : Rat) * 1000 = 250 by norm_num]
  rw [py_int, if_pos (by norm_num : (0 : Rat) ≤ (250 : Rat)),
    floor_eval _ 250 (by norm_num) (by norm_num)]
  decide

theorem py_format_f3_zero : py_format_f3 0 = "0.000" := by
  simp only [py_format_f3]
  rw [show (0 : Rat) * 1000 = ((0 : Int) : Rat) by norm_num,
    round_half_even_intCast]
  decide

theorem py_format_f3_three_halves : py_format_f3 (3 / 2) = "1.500" := by
  simp only [py_format_f3]
  rw [show (3 / 2 : Rat) * 1000 = ((1500 : Int) : Rat) by norm_num,
    round_half_even_intCast]
  decide

theorem py_format_f3_thirteen_quarters : py_format_f3 (13 / 4) = "3.250" := by
  simp only [py_format_f3]
  rw [show (13 / 4 : Rat) * 1000 = ((3250 : Int) : Rat) by norm_num,
    round_half_even_intCast]
  decide

/-- The two-segment result of the claim, with no speakers. -/
def c8_result : TResult :=
  { text := "hello world"
    segments := [⟨0, 3 / 2, "hello", none⟩, ⟨3 / 2, 13 / 4, "world", none⟩]
    language := "en"
    duration := 13 / 4
    speakers := 0
    model := "base" }

/-- C8: formatting the two-segment result as `srt` yields exactly the two
numbered blocks separated by a blank line, and as `tsv` the header row
plus one 3-decimal line per segment. -/
theorem format_output_two_segments :
    format_output c8_result "srt"
      = "1\n00:00:00,000 --> 00:00:01,500\nhello\n"
        ++ "\n" ++ "2\n00:00:01,500 --> 00:00:03,250\nworld\n"
    ∧ format_output c8_result "tsv"
      = "start\tend\ttext\n0.000\t1.500\thello\n1.500\t3.250\tworld" := by
  constructor
  · rw [format_output,
      if_neg (by decide : ¬ ("srt" : String) = "json"),
      if_neg (by decide : ¬ ("srt" : String) = "txt"),
      if_pos rfl]
    simp only [c8_result, List.enumFrom, List.map, speaker_truthy]
    rw [format_timestamp_srt_zero, format_timestamp_srt_three_halves,
      format_timestamp_srt_thirteen_quarters]
    decide
  · rw [format_output,
      if_neg (by decide : ¬ ("tsv" : String) = "json"),
      if_neg (by decide : ¬ ("tsv" : String) = "txt"),
      if_neg (by decide : ¬ ("tsv" : String) = "srt"),
      if_neg (by decide : ¬ ("tsv" : String) = "vtt"),
      if_pos rfl]
    simp only [c8_result, List.map, speaker_truthy]
    rw [py_format_f3_zero, py_format_f3_three_halves,
      py_format_f3_thirteen_quarters]
    decide

/-- C9 counterexample: a dead subscriber (its `send_json` raises) is
still registered after `notify_websocket` returns — the push failure is
swallowed, but the entry is not removed from the subscriber map, contrary
to the claim. -/
theorem notify_failed_push_keeps_subscriber :
    (notify_websocket [("t1", WsConn.mk false)] "t1").raised = false
    ∧ (notify_websocket [("t1", WsConn.mk false)] "t1").delivered = false
    ∧ (notify_websocket [("t1", WsConn.mk false)] "t1").connections
        = [("t1", WsConn.mk false)]
    ∧ ((notify_websocket [("t1", WsConn.mk false)] "t1").connections.find?
        fun kv => kv.1 = "t1") = some ("t1", WsConn.mk false) := by
  exact ⟨rfl, rfl, rfl, rfl⟩

/-- C9 (amended): a failed push is caught inside `notify_websocket` — no
exception propagates and the call is not treated as an error — but the
subscriber map is left exactly as it was; the entry is removed only by
the `finally` block of the `websocket_endpoint` handler when that
connection's handler exits. -/
theorem notify_failure_swallowed (connections : List (String × WsConn))
    (task_id : String) :
    (notify_websocket connections task_id).raised = false
    ∧ (notify_websocket connections task_id).connections = connections
    ∧ ((websocket_endpoint_cleanup connections task_id).find?
        fun kv => kv.1 = task_id) = none := by
  refine ⟨?_, ?_, ?_⟩
  · rcases hm : (connections.find? fun kv => kv.1 = task_id).map Prod.snd with
      _ | ws
    · simp [notify_websocket, hm]
    · cases hws : ws.send_ok <;> simp [notify_websocket, hm, hws]
  · rcases hm : (connections.find? fun kv => kv.1 = task_id).map Prod.snd with
      _ | ws
    · simp [notify_websocket, hm]
    · cases hws : ws.send_ok <;> simp [notify_websocket, hm, hws]
  · rw [List.find?_eq_none]
    intro kv hkv
    have := List.of_mem_filter hkv
    simpa using this

/-- C10: a record that carries `upload_path` is returned raw — field
included — by `GET /status/{task_id}`, while the `GET /tasks` entry, the
persisted snapshot, and the WebSocket payload for the same record all
omit that key. -/
theorem upload_path_only_in_status (t : TaskRecord) (p : String)
    (h : t.upload_path = some p) :
    ("upload_path", Json.str p) ∈ get_status t
    ∧ (∀ v, ("upload_path", v) ∉ list_tasks_entry t)
    ∧ (∀ v, ("upload_path", v) ∉ task_meta_snapshot t)
    ∧ (∀ v, ("upload_path", v) ∉ ws_payload t) := by
  refine ⟨?_, ?_, ?_, ?_⟩
  · simp [get_status, task_items, h]
  · intro v hv
    have := List.of_mem_filter hv
    simp at this
  · intro v hv
    have := List.of_mem_filter hv
    simp at this
  · intro v hv
    simp [ws_payload] at hv

theorem upload_path_only_in_status_witness :
    ("upload_path", Json.str "uploads/ab12cd34_meeting.mp4")
        ∈ get_status sample_task
    ∧ (∀ v, ("upload_path", v) ∉ list_tasks_entry sample_task)
    ∧ (∀ v, ("upload_path", v) ∉ task_meta_snapshot sample_task)
    ∧ (∀ v, ("upload_path", v) ∉ ws_payload sample_task) :=
  upload_path_only_in_status sample_task "uploads/ab12cd34_meeting.mp4" rfl

end WhisperApp
